import Mathlib

/-!
Shallow embedding of the Asset-Design browser client
(`src/js/asset-hierarchy-api.js`, `src/js/notifications.js`,
`src/js/ui-auth.js`).

JavaScript values that flow through the client (parsed JSON bodies,
property lookups, truthiness tests) are modelled by the inductive
`JsVal`.  Each HTTP wrapper function of the client is modelled as a
pure function from an abstract `HttpResponse` (status, status text,
content-type header, raw body text, and the result of parsing the body
as JSON) to a `FetchOutcome` (the value returned to the caller, the
message of the `Error` thrown, or an engine-raised JSON parse error).
-/

/-- JavaScript values, as far as the client inspects them.  `jundef`
models `undefined` (the result of a missing property lookup); numbers
are modelled as integers, which covers every numeric literal the
client manipulates. -/
inductive JsVal where
  | jundef : JsVal
  | jnull : JsVal
  | jbool (b : Bool) : JsVal
  | jnum (n : Int) : JsVal
  | jstr (s : String) : JsVal
  | jarr (xs : List JsVal) : JsVal
  | jobj (fields : List (String × JsVal)) : JsVal

/-- JavaScript truthiness (`if (x)`, `x ? a : b`, `x && y`, `x || y`).
`undefined`, `null`, `false`, `0` and `""` are falsy; every array and
object is truthy. -/
def truthy : JsVal → Bool
  | .jundef => false
  | .jnull => false
  | .jbool b => b
  | .jnum n => n != 0
  | .jstr s => s != ""
  | .jarr _ => true
  | .jobj _ => true

/-- Property access `v.key` (optionally chained): a lookup on an object
returns the first binding of the key, everything else yields
`undefined`. -/
def getProp (v : JsVal) (key : String) : JsVal :=
  match v with
  | .jobj fields =>
    match fields.find? (fun kv => kv.fst == key) with
    | some kv => kv.snd
    | none => .jundef
  | _ => .jundef

mutual

/-- JavaScript string coercion `String(x)` / template-literal
interpolation: arrays coerce to the comma-join of their elements (with
`null`/`undefined` elements contributing the empty string), plain
objects to `[object Object]`. -/
def jsToString : JsVal → String
  | .jundef => "undefined"
  | .jnull => "null"
  | .jbool b => if b then "true" else "false"
  | .jnum n => toString n
  | .jstr s => s
  | .jarr xs => jsToStringList xs
  | .jobj _ => "[object Object]"

def jsToStringList : List JsVal → String
  | [] => ""
  | [x] =>
    match x with
    | .jundef => ""
    | .jnull => ""
    | v => jsToString v
  | x :: y :: xs =>
    (match x with
     | .jundef => ""
     | .jnull => ""
     | v => jsToString v) ++ "," ++ jsToStringList (y :: xs)

end

/-- JSON string escaping as performed by `JSON.stringify` on a string:
quote, backslash and the common control characters are escaped (other
control characters, which never occur in the client's data, are kept
verbatim). -/
def escapeJsonChar (c : Char) : String :=
  if c = '"' then "\\\""
  else if c = '\\' then "\\\\"
  else if c = '\n' then "\\n"
  else if c = '\r' then "\\r"
  else if c = '\t' then "\\t"
  else String.singleton c

def escapeJson (s : String) : String :=
  String.join (s.toList.map escapeJsonChar)

/-- `JSON.stringify` applied to a string value. -/
def jsonStringifyString (s : String) : String :=
  "\"" ++ escapeJson s ++ "\""

mutual

/-- `JSON.stringify` on parsed-JSON values (`jundef` cannot occur in a
parsed body; it is mapped to "null", its in-array serialization). -/
def jsonStringify : JsVal → String
  | .jundef => "null"
  | .jnull => "null"
  | .jbool b => if b then "true" else "false"
  | .jnum n => toString n
  | .jstr s => jsonStringifyString s
  | .jarr xs => "[" ++ jsonStringifyList xs ++ "]"
  | .jobj fs => "\x7b" ++ jsonStringifyFields fs ++ "\x7d"

def jsonStringifyList : List JsVal → String
  | [] => ""
  | [x] => jsonStringify x
  | x :: y :: xs => jsonStringify x ++ "," ++ jsonStringifyList (y :: xs)

def jsonStringifyFields : List (String × JsVal) → String
  | [] => ""
  | [kv] => jsonStringifyString kv.fst ++ ":" ++ jsonStringify kv.snd
  | kv :: kv2 :: xs =>
    jsonStringifyString kv.fst ++ ":" ++ jsonStringify kv.snd ++ ","
      ++ jsonStringifyFields (kv2 :: xs)

end

/-- JavaScript `a || b` on strings (empty string is falsy). -/
def jsOrStr (a b : String) : String :=
  if a = "" then b else a

def dropLeadingQuote : List Char → List Char
  | '"' :: tl => tl
  | l => l

def dropTrailingQuote (l : List Char) : List Char :=
  match l.reverse with
  | '"' :: tl => tl.reverse
  | _ => l

/-- `.replace(/^"|"$/g, '')`: strips one leading and one trailing
double-quote character, as used by the client to unwrap
JSON-stringified plain strings. -/
def stripWrappingQuotes (s : String) : String :=
  ⟨dropTrailingQuote (dropLeadingQuote s.toList)⟩

/-- JavaScript `.trim()`: removes whitespace from both ends. -/
def jsTrim (s : String) : String :=
  ⟨((s.toList.dropWhile Char.isWhitespace).reverse.dropWhile
      Char.isWhitespace).reverse⟩

/-- JavaScript `.slice(0, n)` on a string. -/
def jsSlice (s : String) (n : Nat) : String :=
  ⟨s.toList.take n⟩

/-- Substring containment on character lists, for `.includes`. -/
def containsSeq (hay need : List Char) : Bool :=
  match hay with
  | [] => need.isEmpty
  | _ :: tl => need.isPrefixOf hay || containsSeq tl need

/-- Split a character list on a separator character (every occurrence,
like `String.split` on a single-character separator). -/
def splitOnChar (sep : Char) : List Char → List (List Char)
  | [] => [[]]
  | c :: tl =>
    let r := splitOnChar sep tl
    if c = sep then [] :: r
    else
      match r with
      | h :: t => (c :: h) :: t
      | [] => [[c]]

/-- An HTTP response as observed through the `fetch` API: `bodyText` is
what `response.text()` resolves to, `bodyJson` is `some v` exactly when
`response.json()` resolves to the parsed value `v` (and `none` when it
rejects with a parse error, e.g. on an empty or plain-text body). -/
structure HttpResponse where
  status : Nat
  statusText : String
  contentType : String
  bodyText : String
  bodyJson : Option JsVal

/-- `response.ok`: status in the inclusive range 200-299. -/
def statusOk (status : Nat) : Bool :=
  200 ≤ status && status ≤ 299

/-- `(response.headers.get('content-type') || '').toLowerCase()
.includes('application/json')` — the header value is modelled with
absence as the empty string. -/
def ctIsJson (ct : String) : Bool :=
  containsSeq (ct.toList.map Char.toLower) "application/json".toList

/-- `"{status} {statusText}"` as built by the client's template
literals. -/
def statusLine (r : HttpResponse) : String :=
  toString r.status ++ " " ++ r.statusText

/-- Outcome of one client operation: the value returned to the caller,
the message of the thrown `Error`, or a JSON parse failure raised by
the engine itself (whose message is environment-defined, not chosen by
the client code). -/
inductive FetchOutcome where
  | success (v : JsVal) : FetchOutcome
  | failure (msg : String) : FetchOutcome
  | parseError : FetchOutcome

/-- Shared success-body normalization used by `createAssetNode`,
`updateAssetNode`, `moveAssetNode`, `calculateAverage` and
`retrieveDeletedAssetById`: parsed JSON when the content type is JSON,
else `{message: text}` for a non-empty text body, else `{}`. -/
def normalizeSuccessBody (r : HttpResponse) : FetchOutcome :=
  if ctIsJson r.contentType then
    match r.bodyJson with
    | some v => .success v
    | none => .parseError
  else if r.bodyText = "" then .success (JsVal.jobj [])
  else .success (JsVal.jobj [("message", JsVal.jstr r.bodyText)])

/-- `fetchAssetHierarchy`: throws `API error: {status} {statusText}` on
a non-ok status, otherwise returns `response.json()`. -/
def fetchAssetHierarchy (r : HttpResponse) : FetchOutcome :=
  if statusOk r.status then
    match r.bodyJson with
    | some v => .success v
    | none => .parseError
  else .failure ("API error: " ++ statusLine r)

/-- `fetchAssetsByParentId` (lazy-load endpoint): identical
error/success handling to `fetchAssetHierarchy`. -/
def fetchAssetsByParentId (r : HttpResponse) : FetchOutcome :=
  if statusOk r.status then
    match r.bodyJson with
    | some v => .success v
    | none => .parseError
  else .failure ("API error: " ++ statusLine r)

/-- `fetchDeletedAssets`: identical error/success handling to
`fetchAssetHierarchy`. -/
def fetchDeletedAssets (r : HttpResponse) : FetchOutcome :=
  if statusOk r.status then
    match r.bodyJson with
    | some v => .success v
    | none => .parseError
  else .failure ("API error: " ++ statusLine r)

/-- `createAssetNode`: on a non-ok status reads the body text and
throws `API error: {status} {statusText}: {errText}` (or without the
suffix when the text is empty); on success applies the shared body
normalization. -/
def createAssetNode (r : HttpResponse) : FetchOutcome :=
  if statusOk r.status then normalizeSuccessBody r
  else
    let errText := r.bodyText
    let msg := if errText = "" then statusLine r
               else statusLine r ++ ": " ++ errText
    .failure ("API error: " ++ msg)

/-- `updateAssetNode`: same handling as `createAssetNode`. -/
def updateAssetNode (r : HttpResponse) : FetchOutcome :=
  if statusOk r.status then normalizeSuccessBody r
  else
    let errText := r.bodyText
    let msg := if errText = "" then statusLine r
               else statusLine r ++ ": " ++ errText
    .failure ("API error: " ++ msg)

/-- `moveAssetNode`: same handling as `createAssetNode`. -/
def moveAssetNode (r : HttpResponse) : FetchOutcome :=
  if statusOk r.status then normalizeSuccessBody r
  else
    let errText := r.bodyText
    let msg := if errText = "" then statusLine r
               else statusLine r ++ ": " ++ errText
    .failure ("API error: " ++ msg)

/-- `deleteAssetNode`: throws `API error: {status} {statusText}` on a
non-ok status; on success returns `true` without reading the body. -/
def deleteAssetNode (r : HttpResponse) : FetchOutcome :=
  if statusOk r.status then .success (JsVal.jbool true)
  else .failure ("API error: " ++ statusLine r)

/-- `getAllCombinationsCount`: on a non-ok status surfaces the raw body
text (falling back to `API error: {status} {statusText}` when empty)
with wrapping quotes stripped; on success parses the body and returns
`data.totalCombinations` when it is a number, else the body itself if
it is a number, else `0`. -/
def getAllCombinationsCount (r : HttpResponse) : FetchOutcome :=
  if statusOk r.status then
    match r.bodyJson with
    | none => .parseError
    | some data =>
      match (if truthy data then getProp data "totalCombinations" else JsVal.jundef) with
      | .jnum n => .success (JsVal.jnum n)
      | _ =>
        match data with
        | .jnum m => .success (JsVal.jnum m)
        | _ => .success (JsVal.jnum 0)
  else
    .failure (stripWrappingQuotes
      (jsOrStr r.bodyText ("API error: " ++ statusLine r)))

/-- Shared error-body handling of `calculateAverage` and
`retrieveDeletedAssetById`: when the content type is JSON the whole
parsed body is re-stringified and truncated to 300 characters,
otherwise the raw text is used; the (possibly empty) result falls back
to `API error: {status} {statusText}`, and wrapping quotes are
stripped. -/
def jsonAwareErrorMessage (r : HttpResponse) : FetchOutcome :=
  if ctIsJson r.contentType then
    match r.bodyJson with
    | none => .parseError
    | some v =>
      .failure (stripWrappingQuotes
        (jsOrStr (jsSlice (jsonStringify v) 300) ("API error: " ++ statusLine r)))
  else
    .failure (stripWrappingQuotes
      (jsOrStr r.bodyText ("API error: " ++ statusLine r)))

/-- Argument to `calculateAverage`: either a string or some non-string
value (`typeof columnName !== 'string'` treats all non-strings
alike). -/
inductive JsArg where
  | strArg (s : String) : JsArg
  | nonStr : JsArg

/-- Local validation of `calculateAverage`, performed before `fetch` is
ever called: non-strings and empty/whitespace-only strings raise
`Column name is required`; otherwise the request body sent is
`JSON.stringify(columnName.trim())`. -/
def calculateAverageRequestBody (c : JsArg) : Except String String :=
  match c with
  | .nonStr => .error "Column name is required"
  | .strArg s =>
    if jsTrim s = "" then .error "Column name is required"
    else .ok (jsonStringifyString (jsTrim s))

/-- Response handling of `calculateAverage` (reached only when local
validation passed). -/
def calculateAverageResponse (r : HttpResponse) : FetchOutcome :=
  if statusOk r.status then normalizeSuccessBody r
  else jsonAwareErrorMessage r

/-- `calculateAverage` end to end: validation first (independent of any
network response), then the response handling. -/
def calculateAverage (c : JsArg) (r : HttpResponse) : FetchOutcome :=
  match calculateAverageRequestBody c with
  | .error m => .failure m
  | .ok _ => calculateAverageResponse r

/-- `retrieveDeletedAssetById`: an explicit `204` check precedes
everything else and returns the sentinel `{__noContent: true}`; a
non-ok status surfaces the JSON-aware error message; otherwise the
shared success normalization applies. -/
def retrieveDeletedAssetById (r : HttpResponse) : FetchOutcome :=
  if r.status = 204 then
    .success (JsVal.jobj [("__noContent", JsVal.jbool true)])
  else if statusOk r.status then normalizeSuccessBody r
  else jsonAwareErrorMessage r

/-!
## Notification relay (`src/js/notifications.js`)

The throttle map `_lastNotificationAt` stores, per key, the timestamp
of the last *shown* notification; an absent entry reads as `0`
(`_lastNotificationAt[key] || 0`).  Timestamps are milliseconds from
`Date.now()`, modelled as integers so that the JavaScript subtraction
`now - last` is exact.
-/

/-- `_notificationThrottleMs`. -/
def notificationThrottleMs : Int := 20000

/-- `_shouldShowNotification(key)` as a pure state transition on the
key's stored timestamp: returns whether to show, and the new stored
timestamp (updated to `now` exactly when the notification is shown). -/
def shouldShowNotification (last now : Int) : Bool × Int :=
  if notificationThrottleMs ≤ now - last then (true, now) else (false, last)

/-- The connection-error branch of `startConnection` for the
Notifications hub: shows the toast
`Connection Error (Notifications): {err.message}` only when the
throttle admits it. Returns the toast (if any) and the updated
throttle timestamp for the key `conn:Notifications:error`. -/
def startConnectionError (last now : Int) (errMessage : String) :
    Option String × Int :=
  let d := shouldShowNotification last now
  (if d.fst then some ("Connection Error (Notifications): " ++ errMessage)
   else none, d.snd)

/-- `notificationConnection.onreconnected`: resets the throttle entry
for `conn:Notifications:error` to `0` and shows the reconnect toast. -/
def onreconnected (_last : Int) : Int × String :=
  (0, "Reconnected successfully!")

/-!
## Auth form controller (`src/js/ui-auth.js`)
-/

/-- `validateEmail(v)`: `/^[^\s@]+@[^\s@]+\.[^\s@]+$/.test(v)`.
A string matches exactly when it contains a single `@`, the part before
it is non-empty and free of whitespace, the part after it is free of
whitespace and contains a dot that is neither its first nor its last
character (the two domain-side character classes admit dots, so only
one interior dot is required). -/
def validateEmail (v : String) : Bool :=
  match splitOnChar '@' v.toList with
  | [l, d] =>
    (!l.isEmpty) && l.all (fun c => !c.isWhitespace)
      && d.all (fun c => !c.isWhitespace)
      && ((d.drop 1).dropLast.contains '.')
  | _ => false

/-- The raw field values read by the signup submit handler. -/
structure SignupFields where
  name : String
  email : String
  password : String

/-- The JSON payload POSTed to `/Auth/register`. -/
structure RegisterRequest where
  userName : String
  email : String
  password : String
  role : String
deriving DecidableEq

/-- Field-scoped validation errors produced by the signup handler
before any network activity: empty (trimmed) name, invalid (trimmed)
email, password shorter than 6 characters. -/
def signupValidationErrors (f : SignupFields) : List (String × String) :=
  (if jsTrim f.name = "" then [("name", "Name is required")] else []) ++
  (if validateEmail (jsTrim f.email) then []
   else [("email", "Please enter a valid email")]) ++
  (if f.password.length < 6 then
    [("password", "Password must be at least 6 characters")] else [])

/-- The signup handler issues the registration POST exactly when local
validation produced no error; the request carries the trimmed name and
email and the untrimmed password. -/
def signupSubmit (f : SignupFields) (role : String) : Option RegisterRequest :=
  if signupValidationErrors f = [] then
    some { userName := jsTrim f.name, email := jsTrim f.email,
           password := f.password, role := role }
  else none

/-- The non-ok branch of the login submit handler:
`data = await resp.json().catch(() => null)` and then
`String((data && (data.message || data.error || data)) ||
`Login failed (status)`)` written into the status element. -/
def loginErrorStatusText (r : HttpResponse) : String :=
  let data := match r.bodyJson with
              | some v => v
              | none => JsVal.jnull
  let inner := if truthy data then
                 let m := getProp data "message"
                 if truthy m then m
                 else
                   let e := getProp data "error"
                   if truthy e then e else data
               else data
  if truthy inner then jsToString inner
  else "Login failed (" ++ toString r.status ++ ")"

/-!
## Tree synchronization controller
(`initializeAssetHierarchy` in `src/js/asset-hierarchy-api.js`)
-/

/-- The fields of a widget tree node the move handler reads:
`node.data?.assetId`, `node.original?.data?.assetId`,
`node.original?.text` and `node.text` (an absent optional-chain result
is `none`). -/
structure TreeNodeData where
  assetIdData : Option Int
  assetIdOriginal : Option Int
  originalText : Option String
  text : String

/-- `Number(n?.data?.assetId ?? n?.original?.data?.assetId ?? 0)`:
the backend id fallback chain, with `0` when the node is absent. -/
def resolvedAssetId (n : Option TreeNodeData) : Int :=
  match n with
  | none => 0
  | some nd => nd.assetIdData.getD (nd.assetIdOriginal.getD 0)

/-- `movedNode.original?.text || movedNode.text` (empty string and an
absent original both fall through to the live text). -/
def resolvedOldName (n : TreeNodeData) : String :=
  match n.originalText with
  | some t => if t = "" then n.text else t
  | none => n.text

/-- The event payload of `move_node.jstree`: the moved node's widget
id, its previous parent's widget id and its new parent's widget id
(`'#'` is the synthetic root). -/
structure MoveEventData where
  node : String
  old_parent : String
  parent : String

/-- The composite DTO sent to `updateAssetNode` by the move handler. -/
structure UpdateAssetDto where
  id : Int
  oldParentId : Int
  newParentId : Int
  oldName : String
  newName : String
deriving DecidableEq

/-- Externally visible actions of the move handler, in program order:
user notifications, local `move_node` calls on the widget, and the
`updateAssetNode` network call. -/
inductive UiAction where
  | notify (message kind : String) : UiAction
  | localMove (node target : String) : UiAction
  | networkUpdate (dto : UpdateAssetDto) : UiAction
deriving DecidableEq

/-- The `move_node.jstree` handler. `tree` models `tree.get_node`
(`none` when the widget has no such node), `isRevertingMove` is the
module-level boolean latch, and `updateError` is `some msg` when the
`updateAssetNode` round-trip fails with that message.  Returns the
emitted actions and the final latch value.  The `localMove` actions are
performed while the latch is set, so the re-entrant `move_node` event
they trigger is dropped by the `if (isRevertingMove) return` guard
(the `(0 : Bool)`-latch case of this function). -/
def moveNodeHandler (tree : String → Option TreeNodeData)
    (isRevertingMove : Bool) (data : MoveEventData)
    (updateError : Option String) : List UiAction × Bool :=
  if isRevertingMove then ([], isRevertingMove)
  else if data.old_parent = "#" then
    ([UiAction.notify "Root node cannot be moved" "warning",
      UiAction.localMove data.node data.old_parent], false)
  else
    let movedNode := tree data.node
    let idNum := resolvedAssetId movedNode
    let oldParentId := resolvedAssetId (tree data.old_parent)
    let newParentId := if data.parent = "#" then 0
                       else resolvedAssetId (tree data.parent)
    let oldName := match movedNode with
                   | some nd => resolvedOldName nd
                   | none => ""
    let newName := match movedNode with
                   | some nd => nd.text
                   | none => ""
    let dto : UpdateAssetDto :=
      { id := idNum, oldParentId := oldParentId, newParentId := newParentId,
        oldName := oldName, newName := newName }
    match updateError with
    | none =>
      ([UiAction.networkUpdate dto,
        UiAction.notify ("Moved asset \"" ++ newName ++ "\"") "success"], false)
    | some err =>
      ([UiAction.networkUpdate dto,
        UiAction.notify ("Failed to move node: " ++ err) "error",
        UiAction.localMove data.node data.old_parent], false)

/-- A node produced by the lazy-loading `core.data` callback:
`{id: node_(a.id), text: a.name, children: true,
data: {assetId: a.id}}`. -/
structure LoaderNode where
  id : String
  text : JsVal
  childrenFlag : Bool
  assetId : JsVal

/-- The per-asset mapping of the `core.data` loader. -/
def toLoaderNode (a : JsVal) : LoaderNode :=
  { id := "node_" ++ jsToString (getProp a "id"),
    text := getProp a "name",
    childrenFlag := true,
    assetId := getProp a "id" }

/-- The list the `core.data` loader passes to the widget callback,
as a function of the outcome of `fetchAssetsByParentId`: an exception
(thrown error or JSON parse failure) is caught and turned into the
empty list, a non-array body is normalized to the empty list
(`Array.isArray` guard), and an array is mapped element-wise.  Both the
root branch and the child branch of the loader share this
normalization, and neither branch throws to the widget or shows a user
notification. -/
def coreDataLoad (o : FetchOutcome) : List LoaderNode :=
  match o with
  | .failure _ => []
  | .parseError => []
  | .success v =>
    match v with
    | .jarr xs => xs.map toLoaderNode
    | _ => []

/-!
## Claims
-/

/-- C1 counterexample: for an error response with an empty non-JSON
body, `createAssetNode` surfaces `API error: 500 Internal Server
Error`, not the bare `500 Internal Server Error` the claim states. -/
theorem createAssetNode_emptyBody_message_not_bare_statusLine :
    createAssetNode ⟨500, "Internal Server Error", "", "", none⟩
      = FetchOutcome.failure "API error: 500 Internal Server Error" ∧
    "API error: 500 Internal Server Error" ≠ "500 Internal Server Error" :=
  ⟨rfl, by decide⟩

/-- C1 (amended): for every hierarchy-client operation, when the HTTP
response has a non-success status, its content type is not JSON and its
body text is empty, the surfaced error message is
`API error: {status} {statusText}` — for the three operations that
strip wrapping quote characters, with that stripping applied (which
leaves the message unchanged unless the status text itself ends in a
quote character). -/
theorem errorMessage_emptyBody_uniform (r : HttpResponse)
    (hok : statusOk r.status = false) (hct : ctIsJson r.contentType = false)
    (hbody : r.bodyText = "") :
    fetchAssetHierarchy r = FetchOutcome.failure ("API error: " ++ statusLine r) ∧
    fetchAssetsByParentId r = FetchOutcome.failure ("API error: " ++ statusLine r) ∧
    fetchDeletedAssets r = FetchOutcome.failure ("API error: " ++ statusLine r) ∧
    createAssetNode r = FetchOutcome.failure ("API error: " ++ statusLine r) ∧
    updateAssetNode r = FetchOutcome.failure ("API error: " ++ statusLine r) ∧
    moveAssetNode r = FetchOutcome.failure ("API error: " ++ statusLine r) ∧
    deleteAssetNode r = FetchOutcome.failure ("API error: " ++ statusLine r) ∧
    getAllCombinationsCount r
      = FetchOutcome.failure (stripWrappingQuotes ("API error: " ++ statusLine r)) ∧
    calculateAverageResponse r
      = FetchOutcome.failure (stripWrappingQuotes ("API error: " ++ statusLine r)) ∧
    retrieveDeletedAssetById r
      = FetchOutcome.failure (stripWrappingQuotes ("API error: " ++ statusLine r)) := by
  have h204 : ¬ (r.status = 204) := by
    intro h
    rw [h] at hok
    exact absurd hok (by decide)
  refine ⟨?_, ?_, ?_, ?_, ?_, ?_, ?_, ?_, ?_, ?_⟩ <;>
    simp [fetchAssetHierarchy, fetchAssetsByParentId, fetchDeletedAssets,
      createAssetNode, updateAssetNode, moveAssetNode, deleteAssetNode,
      getAllCombinationsCount, calculateAverageResponse,
      retrieveDeletedAssetById, jsonAwareErrorMessage, jsOrStr,
      hok, hct, hbody, h204]

/-- C1 witness: a concrete 503 response with empty body evaluates to
the prefixed message for a plain operation and for a quote-stripping
operation alike. -/
theorem errorMessage_emptyBody_uniform_witness :
    statusOk 503 = false ∧ ctIsJson "text/plain" = false ∧
    createAssetNode ⟨503, "Service Unavailable", "text/plain", "", none⟩
      = FetchOutcome.failure "API error: 503 Service Unavailable" ∧
    getAllCombinationsCount ⟨503, "Service Unavailable", "text/plain", "", none⟩
      = FetchOutcome.failure "API error: 503 Service Unavailable" := by
  have h := errorMessage_emptyBody_uniform
    ⟨503, "Service Unavailable", "text/plain", "", none⟩ (by decide) (by decide) rfl
  refine ⟨by decide, by decide, ?_, ?_⟩
  · rw [h.2.2.2.1]
    exact congrArg FetchOutcome.failure (by decide)
  · rw [h.2.2.2.2.2.2.2.1]
    exact congrArg FetchOutcome.failure (by decide)

/-- C2 counterexample: the 204 sentinel object returned by
`retrieveDeletedAssetById` carries the field `__noContent`, not the
field `noContent` stated by the claim. -/
theorem retrieveDeletedAssetById_204_sentinel_field_name :
    retrieveDeletedAssetById ⟨204, "No Content", "", "", none⟩
      = FetchOutcome.success (JsVal.jobj [("__noContent", JsVal.jbool true)]) ∧
    FetchOutcome.success (JsVal.jobj [("__noContent", JsVal.jbool true)])
      ≠ FetchOutcome.success (JsVal.jobj [("noContent", JsVal.jbool true)]) := by
  refine ⟨rfl, ?_⟩
  simp

/-- C2 (amended): for the restore operation, an HTTP 204 response
yields the success result exactly `{__noContent: true}` (no other
fields), and is never turned into a thrown error, regardless of the
response's content type or body. -/
theorem retrieveDeletedAssetById_204_noContent_sentinel (r : HttpResponse)
    (h : r.status = 204) :
    retrieveDeletedAssetById r
      = FetchOutcome.success (JsVal.jobj [("__noContent", JsVal.jbool true)]) := by
  simp [retrieveDeletedAssetById, h]

/-- C2 witness: a 204 response whose content type claims JSON and whose
body is non-empty still yields the sentinel success, not an error. -/
theorem retrieveDeletedAssetById_204_noContent_sentinel_witness :
    retrieveDeletedAssetById
      ⟨204, "No Content", "application/json", "ignored", some (JsVal.jstr "ignored")⟩
      = FetchOutcome.success (JsVal.jobj [("__noContent", JsVal.jbool true)]) :=
  retrieveDeletedAssetById_204_noContent_sentinel _ rfl

/-- C9: `calculateAverage` raises `Column name is required` for a
non-string or empty/whitespace-only column name — independently of any
network response, since validation precedes the request — and otherwise
the request body sent is the JSON stringification of the trimmed
column name. -/
theorem calculateAverage_validation (r : HttpResponse) (s : String) :
    calculateAverage JsArg.nonStr r = FetchOutcome.failure "Column name is required" ∧
    (jsTrim s = "" →
      calculateAverage (JsArg.strArg s) r
        = FetchOutcome.failure "Column name is required") ∧
    (jsTrim s ≠ "" →
      calculateAverageRequestBody (JsArg.strArg s)
        = Except.ok (jsonStringifyString (jsTrim s))) := by
  refine ⟨rfl, ?_, ?_⟩ <;> intro h <;>
    simp [calculateAverage, calculateAverageRequestBody, h]

/-- C9 witness: a whitespace-only name is rejected regardless of the
response; a padded name is trimmed and JSON-stringified. -/
theorem calculateAverage_validation_witness :
    calculateAverage (JsArg.strArg "   ") ⟨200, "OK", "application/json", "1", some (JsVal.jnum 1)⟩
      = FetchOutcome.failure "Column name is required" ∧
    jsTrim " colA " ≠ "" ∧
    calculateAverageRequestBody (JsArg.strArg " colA ")
      = Except.ok (jsonStringifyString (jsTrim " colA ")) := by
  refine ⟨?_, by decide, ?_⟩
  · exact (calculateAverage_validation
      ⟨200, "OK", "application/json", "1", some (JsVal.jnum 1)⟩ "   ").2.1 (by decide)
  · exact (calculateAverage_validation
      ⟨200, "OK", "application/json", "1", some (JsVal.jnum 1)⟩ " colA ").2.2 (by decide)

/-- C10: the lazy-loading `core.data` loader supplies the empty child
list to the widget when the fetch throws (HTTP error or JSON parse
failure) or when the response body is not an array, and it raises no
error and shows no user-visible notification in those cases (its only
effect is the callback). -/
theorem coreDataLoad_failure_or_nonarray_empty (r : HttpResponse)
    (m : String) (v : JsVal)
    (hfail : statusOk r.status = false) (hnotarr : ∀ xs, v ≠ JsVal.jarr xs) :
    coreDataLoad (fetchAssetsByParentId r) = [] ∧
    coreDataLoad (FetchOutcome.failure m) = [] ∧
    coreDataLoad FetchOutcome.parseError = [] ∧
    coreDataLoad (FetchOutcome.success v) = [] := by
  refine ⟨?_, rfl, rfl, ?_⟩
  · simp [fetchAssetsByParentId, hfail, coreDataLoad]
  · cases v <;> first | rfl | exact absurd rfl (hnotarr _)

/-- C10 witness: a 500 fetch and a non-array (object) body both load as
an empty child list. -/
theorem coreDataLoad_failure_or_nonarray_empty_witness :
    coreDataLoad (fetchAssetsByParentId ⟨500, "Internal Server Error", "", "", none⟩) = [] ∧
    coreDataLoad (FetchOutcome.success (JsVal.jobj [("id", JsVal.jnum 6)])) = [] := by
  have h := coreDataLoad_failure_or_nonarray_empty
    ⟨500, "Internal Server Error", "", "", none⟩ "boom"
    (JsVal.jobj [("id", JsVal.jnum 6)]) (by decide) (by simp)
  exact ⟨h.1, h.2.2.2⟩

/-- C3 counterexample: for an error response whose JSON body is the
object `{"message": "oops"}`, `calculateAverage` surfaces the
stringification of the whole object, not the field value `oops`. -/
theorem calculateAverage_jsonError_stringifies_whole_body :
    calculateAverage (JsArg.strArg "colA")
      ⟨400, "Bad Request", "application/json", "\x7b\"message\":\"oops\"\x7d",
        some (JsVal.jobj [("message", JsVal.jstr "oops")])⟩
      = FetchOutcome.failure "\x7b\"message\":\"oops\"\x7d" ∧
    "\x7b\"message\":\"oops\"\x7d" ≠ "oops" :=
  ⟨rfl, by decide⟩

/-- C3 (amended): for HTTP error responses with a JSON body, the auth
login handler surfaces the body's `message` field value when it is a
non-empty string; `calculateAverage` and `retrieveDeletedAssetById`
instead surface the JSON stringification of the whole body, truncated
to 300 characters, with wrapping quote characters stripped — so they
surface a field's value only when the body is a bare JSON string, not
an object. -/
theorem jsonError_surfaced_messages (r : HttpResponse) (v : JsVal)
    (fields : List (String × JsVal)) (m : String)
    (hok : statusOk r.status = false) :
    (ctIsJson r.contentType = true → r.bodyJson = some v →
      calculateAverageResponse r
        = FetchOutcome.failure (stripWrappingQuotes
            (jsOrStr (jsSlice (jsonStringify v) 300)
              ("API error: " ++ statusLine r))) ∧
      retrieveDeletedAssetById r
        = FetchOutcome.failure (stripWrappingQuotes
            (jsOrStr (jsSlice (jsonStringify v) 300)
              ("API error: " ++ statusLine r)))) ∧
    (r.bodyJson = some (JsVal.jobj fields) →
      getProp (JsVal.jobj fields) "message" = JsVal.jstr m → m ≠ "" →
      loginErrorStatusText r = m) := by
  have h204 : ¬ (r.status = 204) := by
    intro h
    rw [h] at hok
    exact absurd hok (by decide)
  constructor
  · intro hct hb
    constructor <;>
      simp [calculateAverageResponse, retrieveDeletedAssetById,
        jsonAwareErrorMessage, hok, hct, hb, h204]
  · intro hb hm hne
    simp [loginErrorStatusText, hb, truthy, hm, hne, jsToString]

/-- C3 witness: the login handler surfaces `Wrong password` from a 401
JSON body, while `calculateAverageResponse` on a JSON-object error body
surfaces the whole stringified object. -/
theorem jsonError_surfaced_messages_witness :
    calculateAverageResponse
      ⟨400, "Bad Request", "application/json", "\x7b\"message\":\"oops\"\x7d",
        some (JsVal.jobj [("message", JsVal.jstr "oops")])⟩
      = FetchOutcome.failure "\x7b\"message\":\"oops\"\x7d" ∧
    loginErrorStatusText
      ⟨401, "Unauthorized", "application/json",
        "\x7b\"message\":\"Wrong password\"\x7d",
        some (JsVal.jobj [("message", JsVal.jstr "Wrong password")])⟩
      = "Wrong password" := by
  constructor
  · have h := (jsonError_surfaced_messages
      ⟨400, "Bad Request", "application/json", "\x7b\"message\":\"oops\"\x7d",
        some (JsVal.jobj [("message", JsVal.jstr "oops")])⟩
      (JsVal.jobj [("message", JsVal.jstr "oops")]) [] "x"
      (by decide)).1 (by decide) rfl
    rw [h.1]
    exact congrArg FetchOutcome.failure (by decide)
  · exact (jsonError_surfaced_messages
      ⟨401, "Unauthorized", "application/json",
        "\x7b\"message\":\"Wrong password\"\x7d",
        some (JsVal.jobj [("message", JsVal.jstr "Wrong password")])⟩
      JsVal.jnull [("message", JsVal.jstr "Wrong password")] "Wrong password"
      (by decide)).2 rfl rfl (by decide)

/-- C4: a move event whose old parent is the synthetic root `#` makes
the controller emit the warning and revert the move locally via
`move_node`, without ever issuing the `updateAssetNode` network call;
the revert runs under the boolean latch, and the re-entrant event it
triggers (handler invoked with the latch set) performs no action at
all. -/
theorem moveNodeHandler_root_move_rejected_locally
    (tree : String → Option TreeNodeData) (data : MoveEventData)
    (updateError : Option String) (h : data.old_parent = "#") :
    moveNodeHandler tree false data updateError
      = ([UiAction.notify "Root node cannot be moved" "warning",
          UiAction.localMove data.node "#"], false) ∧
    (∀ dto, UiAction.networkUpdate dto
            ∉ (moveNodeHandler tree false data updateError).fst) ∧
    moveNodeHandler tree true data updateError = ([], true) := by
  refine ⟨?_, ?_, rfl⟩
  · simp [moveNodeHandler, h]
  · intro dto
    simp [moveNodeHandler, h]

/-- C4 witness: a concrete root-level move is reverted locally and the
re-entrant event under the latch is a no-op. -/
theorem moveNodeHandler_root_move_rejected_locally_witness :
    moveNodeHandler (fun _ => none) false ⟨"node_5", "#", "node_2"⟩ none
      = ([UiAction.notify "Root node cannot be moved" "warning",
          UiAction.localMove "node_5" "#"], false) ∧
    moveNodeHandler (fun _ => none) true ⟨"node_5", "#", "node_2"⟩ none
      = ([], true) := by
  have h := moveNodeHandler_root_move_rejected_locally
    (fun _ => none) ⟨"node_5", "#", "node_2"⟩ none rfl
  exact ⟨h.1, h.2.2⟩

/-- C5 counterexample: on a JSON success response, `deleteAssetNode`
returns `true`, not the parsed JSON body required by the claim's
uniform shape. -/
theorem deleteAssetNode_success_shape_not_uniform :
    ctIsJson "application/json" = true ∧
    deleteAssetNode ⟨200, "OK", "application/json", "\x7b\"id\":1\x7d",
        some (JsVal.jobj [("id", JsVal.jnum 1)])⟩
      = FetchOutcome.success (JsVal.jbool true) ∧
    FetchOutcome.success (JsVal.jbool true)
      ≠ FetchOutcome.success (JsVal.jobj [("id", JsVal.jnum 1)]) :=
  ⟨by decide, rfl, by simp⟩

/-- C5 (amended): on an HTTP success status, `createAssetNode`,
`updateAssetNode`, `moveAssetNode`, `calculateAverage` and (for
non-204 responses) `retrieveDeletedAssetById` return the parsed JSON
body when the content type is JSON, else `{message: text}` for a
non-empty body text, else `{}`; `deleteAssetNode` instead returns
`true`, and the fetch operations (`fetchAssetHierarchy`,
`fetchAssetsByParentId`, `fetchDeletedAssets`) parse the body as JSON
unconditionally. -/
theorem successBody_shapes (r : HttpResponse) (v : JsVal)
    (hok : statusOk r.status = true) :
    (ctIsJson r.contentType = true → r.bodyJson = some v →
      createAssetNode r = FetchOutcome.success v ∧
      updateAssetNode r = FetchOutcome.success v ∧
      moveAssetNode r = FetchOutcome.success v ∧
      calculateAverageResponse r = FetchOutcome.success v ∧
      (r.status ≠ 204 → retrieveDeletedAssetById r = FetchOutcome.success v)) ∧
    (r.bodyJson = some v →
      fetchAssetHierarchy r = FetchOutcome.success v ∧
      fetchAssetsByParentId r = FetchOutcome.success v ∧
      fetchDeletedAssets r = FetchOutcome.success v) ∧
    (ctIsJson r.contentType = false → r.bodyText = "" →
      createAssetNode r = FetchOutcome.success (JsVal.jobj []) ∧
      updateAssetNode r = FetchOutcome.success (JsVal.jobj []) ∧
      moveAssetNode r = FetchOutcome.success (JsVal.jobj []) ∧
      calculateAverageResponse r = FetchOutcome.success (JsVal.jobj []) ∧
      (r.status ≠ 204 →
        retrieveDeletedAssetById r = FetchOutcome.success (JsVal.jobj []))) ∧
    (ctIsJson r.contentType = false → r.bodyText ≠ "" →
      createAssetNode r
        = FetchOutcome.success (JsVal.jobj [("message", JsVal.jstr r.bodyText)]) ∧
      updateAssetNode r
        = FetchOutcome.success (JsVal.jobj [("message", JsVal.jstr r.bodyText)]) ∧
      moveAssetNode r
        = FetchOutcome.success (JsVal.jobj [("message", JsVal.jstr r.bodyText)]) ∧
      calculateAverageResponse r
        = FetchOutcome.success (JsVal.jobj [("message", JsVal.jstr r.bodyText)]) ∧
      (r.status ≠ 204 →
        retrieveDeletedAssetById r
          = FetchOutcome.success (JsVal.jobj [("message", JsVal.jstr r.bodyText)]))) ∧
    deleteAssetNode r = FetchOutcome.success (JsVal.jbool true) := by
  have hc : createAssetNode r = normalizeSuccessBody r := by
    simp [createAssetNode, hok]
  have hu : updateAssetNode r = normalizeSuccessBody r := by
    simp [updateAssetNode, hok]
  have hm : moveAssetNode r = normalizeSuccessBody r := by
    simp [moveAssetNode, hok]
  have ha : calculateAverageResponse r = normalizeSuccessBody r := by
    simp [calculateAverageResponse, hok]
  have hr : r.status ≠ 204 → retrieveDeletedAssetById r = normalizeSuccessBody r := by
    intro h204
    simp [retrieveDeletedAssetById, h204, hok]
  refine ⟨?_, ?_, ?_, ?_, by simp [deleteAssetNode, hok]⟩
  · intro hct hb
    have hn : normalizeSuccessBody r = FetchOutcome.success v := by
      simp [normalizeSuccessBody, hct, hb]
    exact ⟨hc.trans hn, hu.trans hn, hm.trans hn, ha.trans hn,
      fun h204 => (hr h204).trans hn⟩
  · intro hb
    refine ⟨?_, ?_, ?_⟩ <;>
      simp [fetchAssetHierarchy, fetchAssetsByParentId, fetchDeletedAssets,
        hok, hb]
  · intro hct hb
    have hn : normalizeSuccessBody r = FetchOutcome.success (JsVal.jobj []) := by
      simp [normalizeSuccessBody, hct, hb]
    exact ⟨hc.trans hn, hu.trans hn, hm.trans hn, ha.trans hn,
      fun h204 => (hr h204).trans hn⟩
  · intro hct hb
    have hn : normalizeSuccessBody r
        = FetchOutcome.success (JsVal.jobj [("message", JsVal.jstr r.bodyText)]) := by
      simp [normalizeSuccessBody, hct, hb]
    exact ⟨hc.trans hn, hu.trans hn, hm.trans hn, ha.trans hn,
      fun h204 => (hr h204).trans hn⟩

/-- C5 witness: a 201 JSON response yields the parsed body for
`createAssetNode` and `updateAssetNode` but `true` for
`deleteAssetNode`. -/
theorem successBody_shapes_witness :
    createAssetNode ⟨201, "Created", "application/json; charset=utf-8",
        "\x7b\"id\":9\x7d", some (JsVal.jobj [("id", JsVal.jnum 9)])⟩
      = FetchOutcome.success (JsVal.jobj [("id", JsVal.jnum 9)]) ∧
    updateAssetNode ⟨201, "Created", "application/json; charset=utf-8",
        "\x7b\"id\":9\x7d", some (JsVal.jobj [("id", JsVal.jnum 9)])⟩
      = FetchOutcome.success (JsVal.jobj [("id", JsVal.jnum 9)]) ∧
    deleteAssetNode ⟨201, "Created", "application/json; charset=utf-8",
        "\x7b\"id\":9\x7d", some (JsVal.jobj [("id", JsVal.jnum 9)])⟩
      = FetchOutcome.success (JsVal.jbool true) := by
  have h := successBody_shapes
    ⟨201, "Created", "application/json; charset=utf-8", "\x7b\"id\":9\x7d",
      some (JsVal.jobj [("id", JsVal.jnum 9)])⟩
    (JsVal.jobj [("id", JsVal.jnum 9)]) (by decide)
  have h1 := h.1 (by decide) rfl
  exact ⟨h1.1, h1.2.1, h.2.2.2.2⟩

/-- C6: for connection-error events sharing a throttle key, an event
less than 20 seconds after the last shown one produces no toast and
leaves the stored timestamp unchanged, while an event 20 seconds or
more after the last shown one produces a new toast and records its
time. -/
theorem connectionError_toast_throttled (last now : Int) (m : String) :
    (now - last < notificationThrottleMs →
      startConnectionError last now m = (none, last)) ∧
    (notificationThrottleMs ≤ now - last →
      startConnectionError last now m
        = (some ("Connection Error (Notifications): " ++ m), now)) := by
  constructor
  · intro h
    have h' : ¬ (notificationThrottleMs ≤ now - last) := not_le.mpr h
    simp [startConnectionError, shouldShowNotification, h']
  · intro h
    simp [startConnectionError, shouldShowNotification, h]

/-- C6 witness: with a toast shown at t=100000ms, a failure 5s later is
suppressed and a failure 25s later produces a new toast. -/
theorem connectionError_toast_throttled_witness :
    startConnectionError 100000 105000 "err" = (none, 100000) ∧
    startConnectionError 100000 125000 "err"
      = (some "Connection Error (Notifications): err", 125000) := by
  constructor
  · exact (connectionError_toast_throttled 100000 105000 "err").1 (by decide)
  · exact ((connectionError_toast_throttled 100000 125000 "err").2
      (by decide)).trans (by decide)

/-- C7: a successful reconnection resets the error-key throttle
timestamp to 0, so the very next connection-error event (at any
realistic clock value, i.e. at least 20000ms since the epoch) produces
a toast immediately — even within 20 seconds of the previously shown
one. -/
theorem onreconnected_clears_throttle (prev now : Int) (m : String)
    (h : notificationThrottleMs ≤ now) :
    (onreconnected prev).fst = 0 ∧
    startConnectionError (onreconnected prev).fst now m
      = (some ("Connection Error (Notifications): " ++ m), now) ∧
    (onreconnected prev).snd = "Reconnected successfully!" := by
  refine ⟨rfl, ?_, rfl⟩
  simp [onreconnected, startConnectionError, shouldShowNotification, h]

/-- C7 witness: a toast shown at t=90000ms, a reconnect, and an error
at t=95000ms (5s later, inside the 20s window) still yields a toast. -/
theorem onreconnected_clears_throttle_witness :
    (95000 : Int) - 90000 < notificationThrottleMs ∧
    startConnectionError (onreconnected 90000).fst 95000 "err"
      = (some "Connection Error (Notifications): err", 95000) := by
  refine ⟨by decide, ?_⟩
  exact ((onreconnected_clears_throttle 90000 95000 "err" (by decide)).2.1).trans
    (by decide)

/-- C8: for a signup submission whose trimmed name is non-empty and
whose trimmed email is valid, a 5-character password fails local
validation and no registration request is issued, while a 6-character
password passes and the registration POST carries the trimmed name and
email and the password. -/
theorem signup_password_length_boundary (name email role pw5 pw6 : String)
    (hname : jsTrim name ≠ "") (hemail : validateEmail (jsTrim email) = true)
    (h5 : pw5.length = 5) (h6 : pw6.length = 6) :
    signupSubmit ⟨name, email, pw5⟩ role = none ∧
    signupSubmit ⟨name, email, pw6⟩ role
      = some ⟨jsTrim name, jsTrim email, pw6, role⟩ := by
  constructor
  · simp [signupSubmit, signupValidationErrors, hname, hemail, h5]
  · simp [signupSubmit, signupValidationErrors, hname, hemail, h6]

/-- C8 witness: `Alice` / `a@b.co` with passwords `12345` and `123456`. -/
theorem signup_password_length_boundary_witness :
    signupSubmit ⟨"Alice", "a@b.co", "12345"⟩ "User" = none ∧
    signupSubmit ⟨"Alice", "a@b.co", "123456"⟩ "User"
      = some ⟨"Alice", "a@b.co", "123456", "User"⟩ := by
  have h := signup_password_length_boundary "Alice" "a@b.co" "User"
    "12345" "123456" (by decide) (by decide) (by decide) (by decide)
  exact h
